import Mathlib

/-!
Verification model of `deepsort_tracker.py` (class `DeepSort`).

The file `deepsort_tracker.py` is a wrapper class around the deep-sort
tracking engine.  Its methods `update_tracks`, `generate_embeds`,
`create_detections` and `refresh_track_ids` are translated here as pure
functions over an explicit `DeepSortState`.  Classes imported by the file
but not part of it (`deep_sort.tracker.Tracker`, `deep_sort.detection.Detection`,
`utils.nms.non_max_suppression`, the embedder) are modelled from the spec and
marked as such; the embedder and the NMS index selection are kept as function
parameters since their internals are outside the wrapper.

Numeric values (boxes, confidences, thresholds) are modelled as `Rat`.
-/

/-- An appearance descriptor (fixed-length numeric vector). -/
abbrev Feature := List Rat

/-- A bounding box in (left, top, width, height) pixel coordinates,
as in the `[left,top,w,h]` lists of `deepsort_tracker.py`. -/
structure LTWH where
  l : Rat
  t : Rat
  w : Rat
  h : Rat
deriving DecidableEq, Repr

/-- One raw detection tuple `( [left,top,w,h], confidence, detection_class )`
as accepted by `DeepSort.update_tracks`. -/
structure RawDetection where
  box : LTWH
  confidence : Rat
  cls : String
deriving DecidableEq, Repr

/-- Modelled from the spec: class `deep_sort.detection.Detection` is imported by
`deepsort_tracker.py` but its file is not under src/.  Per the spec's data model a
Detection holds a bounding box (left, top, width, height), a confidence score, a
class label, and an appearance descriptor.  `create_detections` builds it as
`Detection(raw_det[0], raw_det[1], embed, raw_det[2])`. -/
structure Detection where
  tlwh : LTWH
  confidence : Rat
  feature : Feature
  cls : String
deriving DecidableEq, Repr

/-- Track lifecycle states: Tentative, Confirmed, Deleted. -/
inductive TrackState where
  | Tentative
  | Confirmed
  | Deleted
deriving DecidableEq, Repr

/-- Modelled from the spec: class `deep_sort.track.Track` is not under src/.  Per the
spec a track has a persistent identifier, a lifecycle state, a hit counter, a
time-since-update counter, a class label, a gallery of recent descriptors and a
motion state; the motion state is abstracted to the last committed box (no claim
depends on the Kalman arithmetic). -/
structure Track where
  track_id : Nat
  state : TrackState
  hits : Nat
  time_since_update : Nat
  box : LTWH
  features : List Feature
  cls : String
deriving DecidableEq, Repr

/-- Returns `true` exactly on the Deleted lifecycle state (the tracker's `is_deleted`). -/
def Track.is_deleted (t : Track) : Bool :=
  match t.state with
  | TrackState.Deleted => true
  | _ => false

/-- Observable operations performed on the wrapped tracker object: the motion
predict step, and the association/update step together with the detection list
it consumed. -/
inductive TrackerOp where
  | predictOp
  | updateOp (dets : List Detection)
deriving DecidableEq, Repr

/-- Association outcome: matched (track index, detection index) pairs, unmatched
track indices, unmatched detection indices — the output shape of the spec's
Association Engine. -/
structure Assoc where
  matched : List (Nat × Nat)
  unmatched_tracks : List Nat
  unmatched_detections : List Nat
deriving DecidableEq, Repr

/-- An Association Engine: consumes the current tracks and detections, returns
the assignment. Kept abstract (the engine is external to `deepsort_tracker.py`). -/
abbrev AssocFn := List Track → List Detection → Assoc

/-- Modelled from the spec: class `deep_sort.tracker.Tracker` is not under src/.
It owns the live track list, the identifier counter `next_id`, and the configured
thresholds; `ops` records the operations invoked on it, in order. -/
structure Tracker where
  tracks : List Track
  next_id : Nat
  max_age : Nat
  n_init : Nat
  ops : List TrackerOp
deriving DecidableEq, Repr

/-- Modelled from the spec: per-frame step 1, "run the Motion Model predict step on
every live track (regardless of confirmation state)".  The motion arithmetic is
abstracted (the tracked box is left in place); the call itself is recorded. -/
def Tracker.predict (tr : Tracker) : Tracker :=
  { tr with ops := tr.ops ++ [TrackerOp.predictOp] }

/-- Modelled from the spec: step 3 of the per-frame cycle — correct the matched
track with the detection's box, append its descriptor, reset time-since-update,
increment the hit counter, and promote Tentative to Confirmed once the hit counter
reaches the confirmation threshold. -/
def Track.updateMatched (n_init : Nat) (t : Track) (d : Detection) : Track :=
  let hits2 := t.hits + 1
  { t with
    box := d.tlwh
    features := t.features ++ [d.feature]
    time_since_update := 0
    hits := hits2
    state := if t.state = TrackState.Tentative ∧ n_init ≤ hits2 then
               TrackState.Confirmed
             else t.state }

/-- Modelled from the spec: step 4 of the per-frame cycle — increment
time-since-update for an unmatched track; mark Deleted if it exceeds the max-age
limit, or immediately if the track was Tentative. -/
def Track.markMissed (max_age : Nat) (t : Track) : Track :=
  let aged := { t with time_since_update := t.time_since_update + 1 }
  if aged.state = TrackState.Tentative then
    { aged with state := TrackState.Deleted }
  else if max_age < aged.time_since_update then
    { aged with state := TrackState.Deleted }
  else aged

/-- Modelled from the spec: step 5 of the per-frame cycle — create one new
Tentative track per unmatched detection, seeded with its box and descriptor and
the next identifier. -/
def Track.initiate (tid : Nat) (d : Detection) : Track :=
  { track_id := tid
    state := TrackState.Tentative
    hits := 1
    time_since_update := 0
    box := d.tlwh
    features := [d.feature]
    cls := d.cls }

/-- Modelled from the spec: `Tracker.update` drives steps 2-6 of the per-frame
cycle — associate, update matched tracks, age unmatched tracks, spawn new tracks
for unmatched detections, then garbage-collect all Deleted tracks from the live
set.  The Association Engine is a parameter. -/
def Tracker.update (assoc : AssocFn) (tr : Tracker) (detections : List Detection) : Tracker :=
  let a := assoc tr.tracks detections
  let tracks1 := a.matched.foldl (fun ts p =>
      match ts.get? p.1, detections.get? p.2 with
      | some t, some d => ts.set p.1 (Track.updateMatched tr.n_init t d)
      | _, _ => ts) tr.tracks
  let tracks2 := a.unmatched_tracks.foldl (fun ts i =>
      match ts.get? i with
      | some t => ts.set i (Track.markMissed tr.max_age t)
      | none => ts) tracks1
  let spawned := a.unmatched_detections.foldl (fun (acc : List Track × Nat) i =>
      match detections.get? i with
      | some d => (acc.1 ++ [Track.initiate acc.2 d], acc.2 + 1)
      | none => acc) (tracks2, tr.next_id)
  { tr with
    tracks := spawned.1.filter (fun t => ! t.is_deleted)
    next_id := spawned.2
    ops := tr.ops ++ [TrackerOp.updateOp detections] }

/-- The `DeepSort` wrapper object's state: the NMS overlap threshold, whether an
in-built embedder was created at construction, and the wrapped tracker. -/
structure DeepSortState where
  nms_max_overlap : Rat
  hasEmbedder : Bool
  tracker : Tracker
deriving DecidableEq, Repr

/-- The two exceptions `update_tracks` can raise: embedder not created during
init, and neither embeddings nor frame given. -/
inductive UpdateError where
  | embedderNotCreated
  | noEmbedsOrFrame
deriving DecidableEq, Repr

/-- The degenerate-detection filter of `update_tracks` (line 106):
`[ d for d in raw_detections if d[0][2] > 0 and d[0][3] > 0 ]`. -/
def filter_dets (raw_detections : List RawDetection) : List RawDetection :=
  raw_detections.filter (fun d => decide (0 < d.box.w ∧ 0 < d.box.h))

/-- Python `int(x)`: truncation of a rational toward zero (the numerator divided
by the positive denominator, rounding toward zero). -/
def pyInt (q : Rat) : Int :=
  Int.tdiv q.num q.den

/-- Normalisation of one Python slice endpoint against a list of length `len`:
a negative endpoint counts from the end (clamped below at 0 by `Int.toNat`),
a non-negative endpoint is clamped above at `len`. -/
def pySliceBound (len : Nat) (i : Int) : Nat :=
  if i < 0 then (i + len).toNat else min i.toNat len

/-- Python slice `xs[a:b]` (step 1), including negative-endpoint semantics. -/
def pySlice (xs : List γ) (a b : Int) : List γ :=
  (xs.take (pySliceBound xs.length b)).drop (pySliceBound xs.length a)

/-- The crop built by `generate_embeds` for one detection box whose coordinates
have already been truncated to integers: clamp `l`, `t`, `l+w`, `t+h` with
`max 0` / `min` against the frame shape, then slice
`frame[crop_t:crop_b, crop_l:crop_r]`. -/
def cropBox (frame : List (List γ)) (l t w h : Int) : List (List γ) :=
  let im_height : Int := frame.length
  let im_width : Int := (frame.headD []).length
  let r := l + w
  let b := t + h
  let crop_l := max 0 l
  let crop_r := min im_width r
  let crop_t := max 0 t
  let crop_b := min im_height b
  (pySlice frame crop_t crop_b).map (fun row => pySlice row crop_l crop_r)

/-- The `crops` list accumulated by `DeepSort.generate_embeds`: one clipped crop
of the frame per (truncated) detection box, in detection order. -/
def build_crops (frame : List (List γ)) (raw_dets : List RawDetection) :
    List (List (List γ)) :=
  raw_dets.map (fun d =>
    cropBox frame (pyInt d.box.l) (pyInt d.box.t) (pyInt d.box.w) (pyInt d.box.h))

/-- Method `DeepSort.generate_embeds`: crop the frame at each (truncated) detection box
and run the embedder over the list of crops.  The embedder network itself is
external; it is passed in as `embedFn`. -/
def generate_embeds (embedFn : List (List (List γ)) → List Feature)
    (frame : List (List γ)) (raw_dets : List RawDetection) : List Feature :=
  embedFn (build_crops frame raw_dets)

/-- Method `DeepSort.create_detections`: `for raw_det, embed in zip(raw_dets, embeds)`
builds `Detection(raw_det[0], raw_det[1], embed, raw_det[2])`, in order. -/
def create_detections (raw_dets : List RawDetection) (embeds : List Feature) :
    List Detection :=
  (raw_dets.zip embeds).map (fun p =>
    { tlwh := p.1.box, confidence := p.1.confidence, feature := p.2, cls := p.1.cls })

/-- The list comprehension `[detections[i] for i in indices]` applied to the
index list returned by `non_max_suppression` (whose internals are external;
it is passed in as `nmsFn`). -/
def nmsSelect (nmsFn : List LTWH → Rat → List Rat → List Nat)
    (overlap : Rat) (detections : List Detection) : List Detection :=
  (nmsFn (detections.map Detection.tlwh) overlap
      (detections.map Detection.confidence)).filterMap
    (fun i => detections.get? i)

/-- The descriptors actually used by `update_tracks`: the supplied ones if any,
otherwise the ones generated from the frame. -/
def effective_embeds (embedFn : List (List (List γ)) → List Feature)
    (raw : List RawDetection) (embeds : Option (List Feature))
    (frame : Option (List (List γ))) : List Feature :=
  match embeds with
  | some e => e
  | none => generate_embeds embedFn (frame.getD []) raw

/-- The straight-line part of `DeepSort.update_tracks` after the raise checks:
filter degenerate detections; obtain descriptors; build Detection objects; run
NMS unless the overlap threshold is at its neutral value; then
`tracker.predict()`, `tracker.update(detections)`, and return
`self.tracker.tracks`. -/
def update_tracks_body (embedFn : List (List (List γ)) → List Feature)
    (nmsFn : List LTWH → Rat → List Rat → List Nat) (assoc : AssocFn)
    (s : DeepSortState) (raw_detections : List RawDetection)
    (embeds : Option (List Feature)) (frame : Option (List (List γ))) :
    DeepSortState × Except UpdateError (List Track) :=
  let raw := filter_dets raw_detections
  let embs := effective_embeds embedFn raw embeds frame
  let detections := create_detections raw embs
  let detections2 :=
    if s.nms_max_overlap < 1 then nmsSelect nmsFn s.nms_max_overlap detections
    else detections
  let tr1 := Tracker.predict s.tracker
  let tr2 := Tracker.update assoc tr1 detections2
  ({ s with tracker := tr2 }, Except.ok tr2.tracks)

/-- Method `DeepSort.update_tracks`: raise if descriptors are absent and no embedder or
no frame is available, otherwise run the per-frame cycle.  The state is returned
in both outcomes (a raise leaves the object as it was). -/
def update_tracks (embedFn : List (List (List γ)) → List Feature)
    (nmsFn : List LTWH → Rat → List Rat → List Nat) (assoc : AssocFn)
    (s : DeepSortState) (raw_detections : List RawDetection)
    (embeds : Option (List Feature)) (frame : Option (List (List γ))) :
    DeepSortState × Except UpdateError (List Track) :=
  if embeds.isNone ∧ s.hasEmbedder = false then
    (s, Except.error UpdateError.embedderNotCreated)
  else if embeds.isNone ∧ frame.isNone then
    (s, Except.error UpdateError.noEmbedsOrFrame)
  else
    update_tracks_body embedFn nmsFn assoc s raw_detections embeds frame

/-- Method `DeepSort.refresh_track_ids`: its body is the bare attribute read
`self.tracker._next_id` — the value is read and discarded, nothing is assigned. -/
def refresh_track_ids (s : DeepSortState) : DeepSortState × Nat :=
  (s, s.tracker.next_id)

/-- The detection list handed to `tracker.update` by `update_tracks`: the
filtered detections paired with their descriptors, after the optional NMS step.
(`update_tracks_body` is definitionally this pipeline followed by the
predict/update calls.) -/
def pipeline_dets (embedFn : List (List (List γ)) → List Feature)
    (nmsFn : List LTWH → Rat → List Rat → List Nat) (s : DeepSortState)
    (raw_detections : List RawDetection) (embeds : Option (List Feature))
    (frame : Option (List (List γ))) : List Detection :=
  let raw := filter_dets raw_detections
  let embs := effective_embeds embedFn raw embeds frame
  let detections := create_detections raw embs
  if s.nms_max_overlap < 1 then nmsSelect nmsFn s.nms_max_overlap detections
  else detections

/-- The region of the frame named by the spec sentence for `generate_embeds`:
rows `max 0 t` up to `min H (t+h)`, columns `max 0 l` up to `min W (l+w)`
(an empty region when the index range is empty). -/
def specRegion (frame : List (List γ)) (l t w h : Int) : List (List γ) :=
  let H : Int := frame.length
  let W : Int := (frame.headD []).length
  ((frame.take (min H (t + h)).toNat).drop (max 0 t).toNat).map
    (fun row => (row.take (min W (l + w)).toNat).drop (max 0 l).toNat)

deriving instance DecidableEq for Except

/-- A concrete embedder for ground instances: one descriptor per crop. -/
def exEmbedFn : List (List (List Rat)) → List Feature :=
  fun crops => crops.map (fun c => [(c.length : Rat)])

/-- A concrete NMS index function for ground instances. -/
def exNmsFn : List LTWH → Rat → List Rat → List Nat := fun _ _ _ => []

/-- A concrete Association Engine for ground instances: everything unmatched. -/
def exAssoc : AssocFn :=
  fun _ dets => { matched := [], unmatched_tracks := [],
                  unmatched_detections := List.range dets.length }

/-- A fresh tracker for ground instances. -/
def exTracker : Tracker :=
  { tracks := [], next_id := 1, max_age := 30, n_init := 3, ops := [] }

/-- A `DeepSort` state constructed without an in-built embedder and with the
neutral NMS threshold. -/
def exState : DeepSortState :=
  { nms_max_overlap := 1, hasEmbedder := false, tracker := exTracker }

/-- A well-formed raw detection. -/
def exDet1 : RawDetection :=
  { box := { l := 0, t := 0, w := 50, h := 50 }, confidence := 1, cls := "person" }

/-- A second well-formed raw detection. -/
def exDet2 : RawDetection :=
  { box := { l := 50, t := 50, w := 50, h := 50 }, confidence := 1, cls := "person" }

/-- The track list produced by the ground `update_tracks` call of the C1
witness. -/
def exOut1 : List Track :=
  [{ track_id := 1, state := TrackState.Tentative, hits := 1, time_since_update := 0,
     box := { l := 0, t := 0, w := 50, h := 50 }, features := [[1]], cls := "person" },
   { track_id := 2, state := TrackState.Tentative, hits := 1, time_since_update := 0,
     box := { l := 50, t := 50, w := 50, h := 50 }, features := [[2]], cls := "person" }]

/-! ## Helper lemmas -/

theorem filter_dets_idem (raw : List RawDetection) :
    filter_dets (filter_dets raw) = filter_dets raw := by
  simp [filter_dets, List.filter_filter]

theorem pipeline_dets_filter (embedFn : List (List (List γ)) → List Feature)
    (nmsFn : List LTWH → Rat → List Rat → List Nat) (s : DeepSortState)
    (raw : List RawDetection) (em : Option (List Feature))
    (fr : Option (List (List γ))) :
    pipeline_dets embedFn nmsFn s (filter_dets raw) em fr =
      pipeline_dets embedFn nmsFn s raw em fr := by
  unfold pipeline_dets
  rw [filter_dets_idem]

theorem update_tracks_body_eq (embedFn : List (List (List γ)) → List Feature)
    (nmsFn : List LTWH → Rat → List Rat → List Nat) (aF : AssocFn)
    (s : DeepSortState) (raw : List RawDetection) (em : Option (List Feature))
    (fr : Option (List (List γ))) :
    update_tracks_body embedFn nmsFn aF s raw em fr =
      ({ s with
          tracker := (Tracker.update aF (Tracker.predict s.tracker)
            (pipeline_dets embedFn nmsFn s raw em fr)) },
        Except.ok (Tracker.update aF (Tracker.predict s.tracker)
            (pipeline_dets embedFn nmsFn s raw em fr)).tracks) := rfl

theorem tracker_update_tracks_eq (aF : AssocFn) (tr : Tracker) (dets : List Detection) :
    ∃ spawned : List Track × Nat,
      (Tracker.update aF tr dets).tracks = spawned.1.filter (fun t => ! t.is_deleted) :=
  ⟨_, rfl⟩

theorem mem_tracker_update_not_deleted (aF : AssocFn) (tr : Tracker)
    (dets : List Detection) :
    ∀ t ∈ (Tracker.update aF tr dets).tracks, t.is_deleted = false := by
  intro t ht
  obtain ⟨sp, hsp⟩ := tracker_update_tracks_eq aF tr dets
  rw [hsp] at ht
  simp only [List.mem_filter, Bool.not_eq_true'] at ht
  exact ht.2

theorem state_of_not_deleted (t : Track) (h : t.is_deleted = false) :
    t.state = TrackState.Confirmed ∨ t.state = TrackState.Tentative := by
  unfold Track.is_deleted at h
  cases hs : t.state with
  | Tentative => exact Or.inr rfl
  | Confirmed => exact Or.inl rfl
  | Deleted => rw [hs] at h; cases h

theorem tracker_predict_ops (tr : Tracker) :
    (Tracker.predict tr).ops = tr.ops ++ [TrackerOp.predictOp] := rfl

theorem tracker_update_ops (aF : AssocFn) (tr : Tracker) (dets : List Detection) :
    (Tracker.update aF tr dets).ops = tr.ops ++ [TrackerOp.updateOp dets] := rfl

theorem take_min_length (l : List γ) (c : Nat) : l.take (min c l.length) = l.take c := by
  rcases le_total c l.length with hc | hc
  · rw [min_eq_left hc]
  · rw [min_eq_right hc, List.take_length, List.take_of_length_le hc]

theorem drop_min_of_le (l : List γ) (c H : Nat) (hl : l.length ≤ H) :
    l.drop (min c H) = l.drop c := by
  rcases le_total c H with hc | hc
  · rw [min_eq_left hc]
  · rw [min_eq_right hc, List.drop_eq_nil_of_le hl,
      List.drop_eq_nil_of_le (hl.trans hc)]

theorem pySlice_nonneg (xs : List γ) (a b : Int) (ha : 0 ≤ a) (hb : 0 ≤ b) :
    pySlice xs a b = (xs.take b.toNat).drop a.toNat := by
  unfold pySlice pySliceBound
  rw [if_neg (not_lt.mpr hb), if_neg (not_lt.mpr ha), take_min_length,
    drop_min_of_le _ _ _ (by rw [List.length_take]; exact min_le_right _ _)]

theorem cropBox_eq_specRegion (frame : List (List γ)) (l t w h : Int)
    (hb : 0 ≤ t + h) (hr : 0 ≤ l + w) :
    cropBox frame l t w h = specRegion frame l t w h := by
  simp only [cropBox, specRegion]
  rw [pySlice_nonneg _ _ _ (le_max_left 0 t) (le_min (Int.natCast_nonneg _) hb)]
  congr 1
  funext row
  rw [pySlice_nonneg _ _ _ (le_max_left 0 l) (le_min (Int.natCast_nonneg _) hr)]

/-! ## Claim theorems -/

/-- C1: every completing call to `update_tracks` returns exactly the tracker's
current track set, and every returned track is in state Confirmed or Tentative —
no Deleted track is ever contained in the returned list. -/
theorem update_tracks_returns_live_set (embedFn : List (List (List γ)) → List Feature)
    (nmsFn : List LTWH → Rat → List Rat → List Nat) (aF : AssocFn)
    (s : DeepSortState) (raw : List RawDetection) (em : Option (List Feature))
    (fr : Option (List (List γ))) (ts : List Track)
    (h : (update_tracks embedFn nmsFn aF s raw em fr).2 = Except.ok ts) :
    ts = (update_tracks embedFn nmsFn aF s raw em fr).1.tracker.tracks ∧
    ∀ t ∈ ts, t.state = TrackState.Confirmed ∨ t.state = TrackState.Tentative := by
  by_cases c1 : em.isNone ∧ s.hasEmbedder = false
  · rw [update_tracks, if_pos c1] at h
    exact absurd h (by simp)
  · by_cases c2 : em.isNone ∧ fr.isNone
    · rw [update_tracks, if_neg c1, if_pos c2] at h
      exact absurd h (by simp)
    · rw [update_tracks, if_neg c1, if_neg c2, update_tracks_body_eq] at h ⊢
      simp only [Except.ok.injEq] at h
      subst h
      exact ⟨rfl, fun t ht =>
        state_of_not_deleted t (mem_tracker_update_not_deleted _ _ _ t ht)⟩

/-- C1 witness: a ground call with two detections and two descriptors. -/
theorem update_tracks_returns_live_set_witness :
    exOut1 = (update_tracks exEmbedFn exNmsFn exAssoc exState [exDet1, exDet2]
      (some [[1], [2]]) none).1.tracker.tracks :=
  (update_tracks_returns_live_set exEmbedFn exNmsFn exAssoc exState [exDet1, exDet2]
    (some [[1], [2]]) none exOut1 (by decide)).1

/-- C4: `update_tracks` raises exactly when descriptors are absent and either no
embedder was configured at construction or no frame is supplied. -/
theorem update_tracks_raises_iff (embedFn : List (List (List γ)) → List Feature)
    (nmsFn : List LTWH → Rat → List Rat → List Nat) (aF : AssocFn)
    (s : DeepSortState) (raw : List RawDetection) (em : Option (List Feature))
    (fr : Option (List (List γ))) :
    (∃ e, (update_tracks embedFn nmsFn aF s raw em fr).2 = Except.error e) ↔
      (em = none ∧ (s.hasEmbedder = false ∨ fr = none)) := by
  by_cases c1 : em.isNone ∧ s.hasEmbedder = false
  · rw [update_tracks, if_pos c1]
    simp only [Option.isNone_iff_eq_none] at c1
    simp [c1.1, c1.2]
  · by_cases c2 : em.isNone ∧ fr.isNone
    · rw [update_tracks, if_neg c1, if_pos c2]
      simp only [Option.isNone_iff_eq_none] at c2
      simp [c2.1, c2.2]
    · rw [update_tracks, if_neg c1, if_neg c2, update_tracks_body_eq]
      simp only [Option.isNone_iff_eq_none] at c1 c2
      constructor
      · rintro ⟨e, he⟩
        exact absurd he (by simp)
      · rintro ⟨he, hh | hf⟩
        · exact absurd ⟨he, hh⟩ c1
        · exact absurd ⟨he, hf⟩ c2

/-- C5: whenever `update_tracks` raises, the `DeepSort` state is returned exactly
as it was before the call (error atomicity). -/
theorem update_tracks_error_atomic (embedFn : List (List (List γ)) → List Feature)
    (nmsFn : List LTWH → Rat → List Rat → List Nat) (aF : AssocFn)
    (s : DeepSortState) (raw : List RawDetection) (em : Option (List Feature))
    (fr : Option (List (List γ))) (e : UpdateError)
    (h : (update_tracks embedFn nmsFn aF s raw em fr).2 = Except.error e) :
    (update_tracks embedFn nmsFn aF s raw em fr).1 = s := by
  by_cases c1 : em.isNone ∧ s.hasEmbedder = false
  · rw [update_tracks, if_pos c1]
  · by_cases c2 : em.isNone ∧ fr.isNone
    · rw [update_tracks, if_neg c1, if_pos c2]
    · rw [update_tracks, if_neg c1, if_neg c2, update_tracks_body_eq] at h
      exact absurd h (by simp)

/-- C5 witness: the embedder-missing raise returns the state untouched. -/
theorem update_tracks_error_atomic_witness :
    (update_tracks exEmbedFn exNmsFn exAssoc exState [exDet1] none none).1 = exState :=
  update_tracks_error_atomic exEmbedFn exNmsFn exAssoc exState [exDet1] none none
    UpdateError.embedderNotCreated (by decide)

/-- C2: the degenerate-detection filter keeps exactly the entries with strictly
positive width and height, and it runs before any further processing: the whole
call behaves identically whether or not the input was pre-filtered. -/
theorem filter_dets_spec (raw : List RawDetection) :
    (∀ d, d ∈ filter_dets raw ↔ (d ∈ raw ∧ 0 < d.box.w ∧ 0 < d.box.h)) ∧
    (∀ (γ : Type) (embedFn : List (List (List γ)) → List Feature)
        (nmsFn : List LTWH → Rat → List Rat → List Nat) (aF : AssocFn)
        (s : DeepSortState) (em : Option (List Feature))
        (fr : Option (List (List γ))),
      update_tracks embedFn nmsFn aF s (filter_dets raw) em fr =
        update_tracks embedFn nmsFn aF s raw em fr) := by
  constructor
  · intro d
    simp [filter_dets, List.mem_filter]
  · intro γ embedFn nmsFn aF s em fr
    by_cases c1 : em.isNone ∧ s.hasEmbedder = false
    · rw [update_tracks, update_tracks, if_pos c1, if_pos c1]
    · by_cases c2 : em.isNone ∧ fr.isNone
      · rw [update_tracks, update_tracks, if_neg c1, if_neg c1, if_pos c2, if_pos c2]
      · rw [update_tracks, update_tracks, if_neg c1, if_neg c1, if_neg c2, if_neg c2,
          update_tracks_body_eq, update_tracks_body_eq, pipeline_dets_filter]

/-- C3 counterexample: two detections with one descriptor — the call is not
rejected (it returns normally) and the tracker state is mutated. -/
theorem descriptor_mismatch_accepted :
    (update_tracks exEmbedFn exNmsFn exAssoc exState [exDet1, exDet2]
        (some [[1]]) none).2 =
      Except.ok [{ track_id := 1, state := TrackState.Tentative, hits := 1,
                   time_since_update := 0,
                   box := { l := 0, t := 0, w := 50, h := 50 },
                   features := [[1]], cls := "person" }] ∧
    (update_tracks exEmbedFn exNmsFn exAssoc exState [exDet1, exDet2]
        (some [[1]]) none).1 ≠ exState := by
  decide

/-- C3 amended: a descriptor count mismatch is not rejected — when descriptors
are supplied the call always completes, pairing detections and descriptors
positionally up to the shorter of the two lists and silently dropping the
surplus, and the tracker is updated as usual. -/
theorem descriptor_mismatch_truncates (embedFn : List (List (List γ)) → List Feature)
    (nmsFn : List LTWH → Rat → List Rat → List Nat) (aF : AssocFn)
    (s : DeepSortState) (raw : List RawDetection) (es : List Feature)
    (fr : Option (List (List γ))) :
    (∃ ts, (update_tracks embedFn nmsFn aF s raw (some es) fr).2 = Except.ok ts) ∧
    (create_detections raw es).length = min raw.length es.length := by
  constructor
  · rw [update_tracks, if_neg (by simp), if_neg (by simp), update_tracks_body_eq]
    exact ⟨_, rfl⟩
  · simp [create_detections, List.length_zip]

/-- C6: with the NMS overlap threshold at or above the neutral value 1.0 the NMS
step is skipped and the tracker consumes the full post-filter detection list;
below 1.0 the tracker consumes exactly the detections selected by the indices
returned by `non_max_suppression`. -/
theorem nms_neutral_skips (embedFn : List (List (List γ)) → List Feature)
    (nmsFn : List LTWH → Rat → List Rat → List Nat) (aF : AssocFn)
    (s : DeepSortState) (raw : List RawDetection) (em : Option (List Feature))
    (fr : Option (List (List γ))) (ts : List Track)
    (h : (update_tracks embedFn nmsFn aF s raw em fr).2 = Except.ok ts) :
    (1 ≤ s.nms_max_overlap →
      (update_tracks embedFn nmsFn aF s raw em fr).1.tracker.ops.getLast? =
        some (TrackerOp.updateOp
          (create_detections (filter_dets raw)
            (effective_embeds embedFn (filter_dets raw) em fr)))) ∧
    (s.nms_max_overlap < 1 →
      (update_tracks embedFn nmsFn aF s raw em fr).1.tracker.ops.getLast? =
        some (TrackerOp.updateOp
          (nmsSelect nmsFn s.nms_max_overlap
            (create_detections (filter_dets raw)
              (effective_embeds embedFn (filter_dets raw) em fr))))) := by
  by_cases c1 : em.isNone ∧ s.hasEmbedder = false
  · rw [update_tracks, if_pos c1] at h
    exact absurd h (by simp)
  · by_cases c2 : em.isNone ∧ fr.isNone
    · rw [update_tracks, if_neg c1, if_pos c2] at h
      exact absurd h (by simp)
    · rw [update_tracks, if_neg c1, if_neg c2, update_tracks_body_eq]
      simp only [tracker_update_ops, tracker_predict_ops, List.getLast?_concat]
      constructor
      · intro hge
        rw [pipeline_dets, if_neg (not_lt.mpr hge)]
      · intro hlt
        rw [pipeline_dets, if_pos hlt]

/-- C6 witness: a ground call at the neutral threshold consumes the full
post-filter detection list. -/
theorem nms_neutral_skips_witness :
    (update_tracks exEmbedFn exNmsFn exAssoc exState [exDet1, exDet2]
        (some [[1], [2]]) none).1.tracker.ops.getLast? =
      some (TrackerOp.updateOp
        (create_detections (filter_dets [exDet1, exDet2])
          (effective_embeds exEmbedFn (filter_dets [exDet1, exDet2])
            (some [[1], [2]]) none))) :=
  (nms_neutral_skips exEmbedFn exNmsFn exAssoc exState [exDet1, exDet2]
      (some [[1], [2]]) none exOut1 (by decide)).1 (by decide)

/-- C7: `create_detections` pairs detections and descriptors positionally and
order-preservingly — the i-th Detection is built from the i-th raw detection's
box, confidence and class together with the i-th descriptor, and the output
length is the minimum of the two input lengths (so equal lengths are preserved). -/
theorem create_detections_pairwise (raw_dets : List RawDetection) (embeds : List Feature) :
    (create_detections raw_dets embeds).length = min raw_dets.length embeds.length ∧
    ∀ (i : Nat) (h1 : i < raw_dets.length) (h2 : i < embeds.length),
      (create_detections raw_dets embeds).get? i =
        some { tlwh := (raw_dets.get ⟨i, h1⟩).box,
               confidence := (raw_dets.get ⟨i, h1⟩).confidence,
               feature := embeds.get ⟨i, h2⟩,
               cls := (raw_dets.get ⟨i, h1⟩).cls } := by
  constructor
  · simp [create_detections, List.length_zip]
  · intro i h1 h2
    simp only [create_detections, List.get?_eq_getElem?, List.getElem?_map]
    have hz : (raw_dets.zip embeds)[i]? =
        some (raw_dets.get ⟨i, h1⟩, embeds.get ⟨i, h2⟩) := by
      rw [List.getElem?_zip_eq_some]
      exact ⟨by rw [List.getElem?_eq_getElem h1]; rfl,
             by rw [List.getElem?_eq_getElem h2]; rfl⟩
    rw [hz]
    rfl

/-- C7 witness: a ground pairing at index 0. -/
theorem create_detections_pairwise_witness :
    (create_detections [exDet1] [[1]]).get? 0 =
      some { tlwh := exDet1.box, confidence := exDet1.confidence,
             feature := [1], cls := exDet1.cls } :=
  (create_detections_pairwise [exDet1] [[1]]).2 0 (by decide) (by decide)

/-- C8: every successful `update_tracks` call invokes the tracker's predict step
exactly once and its association/update step exactly once, in that order — the
operations appended to the tracker during the call are precisely
`[predict, update]`. -/
theorem predict_once_before_update (embedFn : List (List (List γ)) → List Feature)
    (nmsFn : List LTWH → Rat → List Rat → List Nat) (aF : AssocFn)
    (s : DeepSortState) (raw : List RawDetection) (em : Option (List Feature))
    (fr : Option (List (List γ))) (ts : List Track)
    (h : (update_tracks embedFn nmsFn aF s raw em fr).2 = Except.ok ts) :
    (update_tracks embedFn nmsFn aF s raw em fr).1.tracker.ops =
      s.tracker.ops ++ [TrackerOp.predictOp,
        TrackerOp.updateOp (pipeline_dets embedFn nmsFn s raw em fr)] := by
  by_cases c1 : em.isNone ∧ s.hasEmbedder = false
  · rw [update_tracks, if_pos c1] at h
    exact absurd h (by simp)
  · by_cases c2 : em.isNone ∧ fr.isNone
    · rw [update_tracks, if_neg c1, if_pos c2] at h
      exact absurd h (by simp)
    · rw [update_tracks, if_neg c1, if_neg c2, update_tracks_body_eq]
      simp only [tracker_update_ops, tracker_predict_ops, List.append_assoc]
      rfl

/-- C8 witness: a ground call appends exactly one predict followed by one update. -/
theorem predict_once_before_update_witness :
    (update_tracks exEmbedFn exNmsFn exAssoc exState [exDet1, exDet2]
        (some [[1], [2]]) none).1.tracker.ops =
      [TrackerOp.predictOp,
       TrackerOp.updateOp (pipeline_dets exEmbedFn exNmsFn exState [exDet1, exDet2]
          (some [[1], [2]]) none)] :=
  predict_once_before_update exEmbedFn exNmsFn exAssoc exState [exDet1, exDet2]
    (some [[1], [2]]) none exOut1 (by decide)

/-- C9 counterexample: a box lying wholly above the image (t = -10, h = 5, so
t+h = -5 < 0) on a 6-row frame.  The claim's region rows max(0,t)..min(H,t+h)
is empty, but the Python slice `frame[0:-5]` counts the negative stop from the
end of the frame, so the crop built by `generate_embeds` is the frame's first
row — not the claimed region. -/
theorem crop_negative_bottom_mismatch :
    build_crops [[(0:Nat)],[1],[2],[3],[4],[5]]
        [{ box := { l := 0, t := -10, w := 1, h := 5 }, confidence := 1,
           cls := "person" }] =
      [[[0]]] ∧
    specRegion [[(0:Nat)],[1],[2],[3],[4],[5]] 0 (-10) 1 5 = [] := by
  decide

/-- C9 amended: for every frame and every truncated box whose bottom edge `t+h`
and right edge `l+w` are non-negative, the crop built by `generate_embeds` is
exactly the frame region with rows max(0,t)..min(H,t+h) and columns
max(0,l)..min(W,l+w), its slice indices never lie outside the frame (the crop
has at most H rows and every crop row is a contiguous slice of an actual frame
row), and a box partially or wholly outside the image yields a clipped, possibly
empty crop.  When `t+h` or `l+w` is negative, the Python slice instead counts
that endpoint from the end of the axis (still without any out-of-bounds access). -/
theorem cropBox_clipped_region (frame : List (List γ)) (l t w h : Int)
    (hb : 0 ≤ t + h) (hr : 0 ≤ l + w) :
    cropBox frame l t w h = specRegion frame l t w h ∧
    (cropBox frame l t w h).length ≤ frame.length ∧
    ∀ row ∈ cropBox frame l t w h, ∃ orig ∈ frame,
      row = (orig.take (min ((frame.headD []).length : Int) (l + w)).toNat).drop
        (max 0 l).toNat := by
  refine ⟨cropBox_eq_specRegion frame l t w h hb hr, ?_, ?_⟩
  · rw [cropBox_eq_specRegion frame l t w h hb hr]
    simp only [specRegion, List.length_map, List.length_drop, List.length_take]
    exact (Nat.sub_le _ _).trans (min_le_right _ _)
  · intro row hrow
    rw [cropBox_eq_specRegion frame l t w h hb hr] at hrow
    simp only [specRegion, List.mem_map] at hrow
    obtain ⟨orig, horig, rfl⟩ := hrow
    exact ⟨orig,
      List.Sublist.mem horig ((List.drop_sublist _ _).trans (List.take_sublist _ _)),
      rfl⟩

/-- C9 witness: a fully in-bounds ground box, where the crop equals the clipped
region. -/
theorem cropBox_clipped_region_witness :
    cropBox [[(0:Nat)],[1]] 0 0 1 1 = specRegion [[(0:Nat)],[1]] 0 0 1 1 :=
  (cropBox_clipped_region [[(0:Nat)],[1]] 0 0 1 1 (by decide) (by decide)).1

/-- C10: `refresh_track_ids` reads the tracker's next-identifier counter and
leaves the entire tracker state unchanged — no track and no counter is modified. -/
theorem refresh_track_ids_no_effect (s : DeepSortState) :
    (refresh_track_ids s).1 = s ∧
    (refresh_track_ids s).2 = s.tracker.next_id ∧
    (refresh_track_ids s).1.tracker.tracks = s.tracker.tracks ∧
    (refresh_track_ids s).1.tracker.next_id = s.tracker.next_id :=
  ⟨rfl, rfl, rfl, rfl⟩
